import Mathlib

/-!
Shallow embedding of `helm_repo_updater` (src/src/main.rs), a tool that
appends a new release entry to a Helm-style chart repository index.

The YAML document model mirrors `serde_yaml::Value` restricted to the
constructors the program can encounter; a `Mapping` is an ordered list of
key-value pairs, matching the insertion-order-preserving map used by
`serde_yaml::Mapping` (an IndexMap). Text-level YAML parsing
(`serde_yaml::from_str` producing a `Value`) is not embedded; the file input
to `update_yaml` carries the parse outcome alongside the raw contents.
Deserialization from `Value` into the typed structs (the serde derive
semantics) is embedded, as several claims depend on it.
-/

set_option autoImplicit false

namespace HelmRepoUpdater

/-- YAML document model, after `serde_yaml::Value`: null, booleans, strings,
sequences and mappings.  Numbers do not occur in any document this program
constructs or deconstructs, so they are not modelled. -/
inductive Value where
  | null
  | bool (b : Bool)
  | str (s : String)
  | seq (xs : List Value)
  | map (kvs : List (Value × Value))

/-- Ordered key-value mapping, after `serde_yaml::Mapping` (insertion order
preserving). -/
abbrev Mapping := List (Value × Value)

/-- Equality of a YAML value with `Value::String(s)`, as used by the
`Mapping::entry(Value::String(...))` key comparison in the source. -/
def Value.eqStr : Value → String → Bool
  | Value.str t, s => t == s
  | _, _ => false

/-- Whether a YAML value is a sequence (`Value::Sequence` in the source). -/
def Value.isSeq : Value → Bool
  | Value.seq _ => true
  | _ => false

/-- First value stored under the string key `s`, reflecting map lookup in
`serde_yaml::Mapping` (which holds at most one occurrence of a key). -/
def lookupStr (m : Mapping) (s : String) : Option Value :=
  (m.find? fun kv => kv.1.eqStr s).map Prod.snd

/-- Replace the value held under string key `s` (first occurrence), keeping
every other pair and the overall order: the in-place mutation performed
through the reference returned by `Mapping::entry(...).or_insert(...)`. -/
def setStrKey (m : Mapping) (s : String) (v : Value) : Mapping :=
  match m with
  | [] => []
  | (k, w) :: rest =>
    if k.eqStr s then (k, v) :: rest else (k, w) :: setStrKey rest s v

/-- `struct Maintainer` (src/src/main.rs lines 48-53). -/
structure Maintainer where
  email : String
  name : String
  url : String
deriving DecidableEq

/-- `struct ChartEntry` (src/src/main.rs lines 27-46).  Field `type` is
named `entry_type` as in the Rust source. -/
structure ChartEntry where
  api_version : String
  app_version : String
  created : String
  description : String
  digest : String
  home : String
  icon : String
  keywords : List String
  maintainers : List Maintainer
  name : String
  sources : List String
  entry_type : String
  urls : List String
  version : String

/-- `struct Constants` (src/src/main.rs lines 55-70). -/
structure Constants where
  api_version : String
  app_version : String
  description : String
  home : String
  icon : String
  keywords : List String
  maintainers : List Maintainer
  name : String
  sources : List String
  entry_type : String

/-- `impl Default for Constants` (src/src/main.rs lines 72-91). -/
def Constants.default : Constants :=
  { api_version := "v2"
    app_version := "1.0.0"
    description := "Test Chart"
    home := "https://example.com"
    icon := "https://example.com/icon.png"
    keywords := ["test", "chart"]
    maintainers := [{ email := "test@example.com"
                      name := "Abdulrhman Alkhodiry"
                      url := "https://example.com" }]
    name := "test-chart"
    sources := ["https://github.com/test/chart"]
    entry_type := "application" }

/-- `struct Parameters` (src/src/main.rs lines 93-100): `urls` is a list of
strings and `appVersion` is optional. -/
structure Parameters where
  app_version : Option String
  digest : String
  version : String
  urls : List String

/-- `impl Default for Parameters` (src/src/main.rs lines 102-111). -/
def Parameters.default : Parameters :=
  { app_version := none
    digest := "abc123"
    version := "0.1.0"
    urls := ["https://example.com/test-chart-0.1.0.tgz"] }

/-- `struct ChartYaml` (src/src/main.rs lines 11-16): optional `apiVersion`
and an `entries` mapping from chart name to a YAML value. -/
structure ChartYaml where
  api_version : Option String
  entries : Mapping

/-- `impl Default for ChartYaml` (src/src/main.rs lines 18-25). -/
def ChartYaml.default : ChartYaml :=
  { api_version := some "v1", entries := [] }

/-- serde semantics of an `Option<String>` field: an absent key or an
explicit null deserializes to `None`, a string to `Some`, anything else is
a type error. -/
def parseOptString : Option Value → Option (Option String)
  | none => some none
  | some Value.null => some none
  | some (Value.str s) => some (some s)
  | some _ => none

/-- serde semantics of a required `String` field. -/
def parseString : Option Value → Option String
  | some (Value.str s) => some s
  | _ => none

/-- serde semantics of a required `Mapping` field: the value must be a YAML
mapping. -/
def parseMapping : Option Value → Option Mapping
  | some (Value.map kvs) => some kvs
  | _ => none

/-- serde semantics of a required `Vec<String>` field: the value must be a
sequence of strings; in particular a single bare string is rejected, never
promoted to a one-element list. -/
def parseStringList : Option Value → Option (List String)
  | some (Value.seq xs) =>
    xs.mapM fun x =>
      match x with
      | Value.str s => some s
      | _ => none
  | _ => none

/-- Deserialization of `ChartYaml` from a YAML value, following the serde
derive for src/src/main.rs lines 11-16: the document must be a mapping,
`apiVersion` is optional (absent gives `none`), `entries` must be present
and a mapping; unknown keys are ignored. -/
def parseChartYaml (v : Value) : Option ChartYaml :=
  match v with
  | Value.map kvs =>
    match parseOptString (lookupStr kvs "apiVersion"),
          parseMapping (lookupStr kvs "entries") with
    | some av, some es => some { api_version := av, entries := es }
    | _, _ => none
  | _ => none

/-- Deserialization of `Parameters` from a YAML value, following the serde
derive for src/src/main.rs lines 93-100. -/
def parseParameters (v : Value) : Option Parameters :=
  match v with
  | Value.map kvs =>
    match parseOptString (lookupStr kvs "appVersion"),
          parseString (lookupStr kvs "digest"),
          parseString (lookupStr kvs "version"),
          parseStringList (lookupStr kvs "urls") with
    | some av, some dg, some vr, some us =>
      some { app_version := av, digest := dg, version := vr, urls := us }
    | _, _, _, _ => none
  | _ => none

/-- A UTC instant broken into calendar and clock fields, the information
`chrono::Utc::now()` exposes to the `%Y-%m-%dT%H:%M:%S%.3fZ` format string
(nanoseconds below the millisecond are truncated by `%.3f`). -/
structure DateTime where
  year : Nat
  month : Nat
  day : Nat
  hour : Nat
  minute : Nat
  second : Nat
  millis : Nat

/-- Field ranges guaranteed for every instant `chrono::Utc::now()` can
return (its year is bounded far below 10000 by the i64 nanosecond range). -/
def DateTime.valid (t : DateTime) : Prop :=
  t.year ≤ 9999 ∧ 1 ≤ t.month ∧ t.month ≤ 12 ∧ 1 ≤ t.day ∧ t.day ≤ 31 ∧
    t.hour ≤ 23 ∧ t.minute ≤ 59 ∧ t.second ≤ 59 ∧ t.millis ≤ 999

/-- The decimal digit character for `n % 10`. -/
def digitChar (n : Nat) : Char := Char.ofNat (48 + n % 10)

/-- Two-digit zero-padded decimal, as chrono prints `%m`, `%d`, `%H`, `%M`,
`%S` for their (always two-digit) ranges. -/
def pad2 (n : Nat) : String := String.mk [digitChar (n / 10), digitChar n]

/-- Three-digit zero-padded decimal, as chrono prints the milliseconds of
`%.3f` (the leading dot is added by the caller). -/
def pad3 (n : Nat) : String :=
  String.mk [digitChar (n / 100), digitChar (n / 10), digitChar n]

/-- chrono `%Y`: the year zero-padded to four digits; years of five or more
digits are printed in full behind a plus sign. -/
def pad4 (n : Nat) : String :=
  if n < 10000 then
    String.mk [digitChar (n / 1000), digitChar (n / 100), digitChar (n / 10), digitChar n]
  else "+" ++ toString n

/-- `Utc::now().format("%Y-%m-%dT%H:%M:%S%.3fZ").to_string()`
(src/src/main.rs line 134). -/
def formatTimestamp (t : DateTime) : String :=
  pad4 t.year ++ "-" ++ pad2 t.month ++ "-" ++ pad2 t.day ++ "T" ++
    pad2 t.hour ++ ":" ++ pad2 t.minute ++ ":" ++ pad2 t.second ++ "." ++
    pad3 t.millis ++ "Z"

/-- Recognizer for the shape `YYYY-MM-DDTHH:MM:SS.mmmZ`: twenty-four
characters, digits in the date, time and millisecond positions, literal
separators, and a trailing literal Z with no other timezone offset. -/
def isTimestampShape (s : String) : Bool :=
  match s.data with
  | [y1, y2, y3, y4, a1, mo1, mo2, a2, d1, d2, tc, h1, h2, c1, mi1, mi2,
     c2, s1, s2, dotc, f1, f2, f3, z] =>
    y1.isDigit && y2.isDigit && y3.isDigit && y4.isDigit && a1 == '-' &&
    mo1.isDigit && mo2.isDigit && a2 == '-' && d1.isDigit && d2.isDigit &&
    tc == 'T' && h1.isDigit && h2.isDigit && c1 == ':' && mi1.isDigit &&
    mi2.isDigit && c2 == ':' && s1.isDigit && s2.isDigit && dotc == '.' &&
    f1.isDigit && f2.isDigit && f3.isDigit && z == 'Z'
  | _ => false

/-- `serde_yaml::to_value(&new_entry)` on a `ChartEntry`: a mapping with the
serde field names in declaration order (src/src/main.rs lines 27-46). -/
def maintainerToValue (m : Maintainer) : Value :=
  Value.map [(Value.str "email", Value.str m.email),
             (Value.str "name", Value.str m.name),
             (Value.str "url", Value.str m.url)]

/-- `serde_yaml::to_value(&new_entry)` (src/src/main.rs line 163). -/
def chartEntryToValue (e : ChartEntry) : Value :=
  Value.map
    [(Value.str "apiVersion", Value.str e.api_version),
     (Value.str "appVersion", Value.str e.app_version),
     (Value.str "created", Value.str e.created),
     (Value.str "description", Value.str e.description),
     (Value.str "digest", Value.str e.digest),
     (Value.str "home", Value.str e.home),
     (Value.str "icon", Value.str e.icon),
     (Value.str "keywords", Value.seq (e.keywords.map Value.str)),
     (Value.str "maintainers", Value.seq (e.maintainers.map maintainerToValue)),
     (Value.str "name", Value.str e.name),
     (Value.str "sources", Value.seq (e.sources.map Value.str)),
     (Value.str "type", Value.str e.entry_type),
     (Value.str "urls", Value.seq (e.urls.map Value.str)),
     (Value.str "version", Value.str e.version)]

/-- The new entry built at src/src/main.rs lines 136-154: every field copied
from `constants` except `created` (the formatted timestamp), and
`digest`, `urls`, `version` from `parameters`; `app_version` falls back to
the constants value only when the parameters value is absent
(`unwrap_or_else`, lines 138-141). -/
def mkNewEntry (created : String) (c : Constants) (p : Parameters) : ChartEntry :=
  { api_version := c.api_version
    app_version := p.app_version.getD c.app_version
    created := created
    description := c.description
    digest := p.digest
    home := c.home
    icon := c.icon
    keywords := c.keywords
    maintainers := c.maintainers
    name := c.name
    sources := c.sources
    entry_type := c.entry_type
    urls := p.urls
    version := p.version }

/-- The append step, src/src/main.rs lines 156-166:
`data.entries.entry(Value::String(name)).or_insert(Value::Sequence(vec![]))`
followed by pushing the new entry when the value at the key is a sequence,
and the literal error of line 165 otherwise.  An absent key is inserted at
the end of the mapping (IndexMap `entry` semantics). -/
def updateEntries (m : Mapping) (name : String) (e : Value) : Except String Mapping :=
  match lookupStr m name with
  | some (Value.seq xs) => Except.ok (setStrKey m name (Value.seq (xs ++ [e])))
  | some _ => Except.error "Unexpected value type for entries"
  | none => Except.ok (m ++ [(Value.str name, Value.seq [e])])

/-- serde_yaml serialization of the optional `apiVersion` field value:
`None` serializes as `null`, `Some s` as the string itself. -/
def apiVersionText : Option String → String
  | none => "null"
  | some s => s

mutual
/-- Text of a YAML value inside the serialized index.  This models
`serde_yaml::to_string` only up to being an injective-enough function of
the structure: scalars are emitted raw and collections in flow style; no
claim inspects this part of the output text. -/
def emitValue : Value → String
  | Value.null => "null"
  | Value.bool b => cond b "true" "false"
  | Value.str s => s
  | Value.seq xs => "[" ++ emitSeq xs ++ "]"
  | Value.map kvs => "\x7b" ++ emitMap kvs ++ "\x7d"

/-- Comma-separated sequence elements. -/
def emitSeq : List Value → String
  | [] => ""
  | x :: xs => emitValue x ++ (cond xs.isEmpty "" ", ") ++ emitSeq xs

/-- Comma-separated `key: value` pairs. -/
def emitMap : List (Value × Value) → String
  | [] => ""
  | (k, v) :: kvs =>
    emitValue k ++ ": " ++ emitValue v ++ (cond kvs.isEmpty "" ", ") ++ emitMap kvs
end

/-- The `entries` part of the serialized index. -/
def entriesText (m : Mapping) : String :=
  "entries: " ++ emitValue (Value.map m) ++ "\n"

/-- `serde_yaml::to_string(&data)` (src/src/main.rs line 168): the
`apiVersion` line first (field order of `ChartYaml`), then the entries. -/
def serializeChartYaml (d : ChartYaml) : String :=
  ("apiVersion: " ++ apiVersionText d.api_version ++ "\n") ++ entriesText d.entries

/-- Rust `char::is_whitespace`: the Unicode White_Space property
(U+0009-U+000D, U+0020, U+0085, U+00A0, U+1680, U+2000-U+200A, U+2028,
U+2029, U+202F, U+205F, U+3000), which `str::trim` strips from both
ends. -/
def isRustWhitespace (c : Char) : Bool :=
  (9 ≤ c.val && c.val ≤ 13) || c.val == 32 || c.val == 0x85 || c.val == 0xA0 ||
    c.val == 0x1680 || (0x2000 ≤ c.val && c.val ≤ 0x200A) || c.val == 0x2028 ||
    c.val == 0x2029 || c.val == 0x202F || c.val == 0x205F || c.val == 0x3000

/-- `contents.trim().is_empty()` (src/src/main.rs line 121): the trimmed
string is empty exactly when every character of the contents has the
Unicode White_Space property (this phrasing avoids materializing the
trimmed string). -/
def isBlank (contents : String) : Bool :=
  contents.data.all isRustWhitespace

/-- The index file as `update_yaml` observes it.
`missing`: `Path::new(file_path).exists()` is false.
`present contents outcome`: the file exists with the given text; `outcome`
is what YAML text parsing (`serde_yaml::from_str`) yields on that text
(`none` when the text is not valid YAML), and is only consulted when the
text is not whitespace-only. -/
inductive FileInput where
  | missing
  | present (contents : String) (outcome : Option Value)

/-- Load step of `update_yaml` (src/src/main.rs lines 118-132): a missing
file gives the fresh index with `apiVersion: v1` and empty entries;
whitespace-only contents are replaced by the literal
`"apiVersion: v1\nentries: \x7b\x7d\n"`, whose parse is that same fresh
index; otherwise the contents must parse as YAML and deserialize as
`ChartYaml`, and either failure propagates as an error (the `?` operator
on `serde_yaml::from_str`). -/
def loadIndex (file : FileInput) : Except String ChartYaml :=
  match file with
  | FileInput.missing => Except.ok { api_version := some "v1", entries := [] }
  | FileInput.present contents outcome =>
    if isBlank contents then
      Except.ok { api_version := some "v1", entries := [] }
    else
      match outcome with
      | none => Except.error "invalid YAML in index file"
      | some v =>
        match parseChartYaml v with
        | some d => Except.ok d
        | none => Except.error "index file does not match the expected schema"

/-- `update_yaml` (src/src/main.rs lines 113-169): load or initialize the
index, build the new entry from constants, parameters and the formatted
current instant, append it under the key `constants.name`, and serialize
the whole document. -/
def update_yaml (now : DateTime) (file : FileInput) (constants : Constants)
    (parameters : Parameters) : Except String String :=
  match loadIndex file with
  | Except.error e => Except.error e
  | Except.ok data =>
    let created := formatTimestamp now
    let new_entry := mkNewEntry created constants parameters
    match updateEntries data.entries constants.name (chartEntryToValue new_entry) with
    | Except.error e => Except.error e
    | Except.ok m =>
      Except.ok (serializeChartYaml { api_version := data.api_version, entries := m })

/-! ### Mapping lemmas -/

theorem eqStr_iff (k : Value) (s : String) : k.eqStr s = true ↔ k = Value.str s := by
  cases k <;> simp [Value.eqStr]

theorem lookupStr_nil (s : String) : lookupStr [] s = none := rfl

theorem lookupStr_cons (k w : Value) (rest : Mapping) (s : String) :
    lookupStr ((k, w) :: rest) s = if k.eqStr s then some w else lookupStr rest s := by
  by_cases h : k.eqStr s <;> simp [lookupStr, List.find?, h]

theorem lookupStr_setStrKey_self (m : Mapping) (s : String) (v w : Value)
    (h : lookupStr m s = some w) :
    lookupStr (setStrKey m s v) s = some v := by
  induction m with
  | nil => simp [lookupStr_nil] at h
  | cons kv rest ih =>
    obtain ⟨k, w0⟩ := kv
    rw [lookupStr_cons] at h
    by_cases hk : k.eqStr s
    · simp [setStrKey, hk, lookupStr_cons]
    · simp only [hk, if_false] at h
      simp [setStrKey, hk, lookupStr_cons, ih h]

theorem lookupStr_setStrKey_ne (m : Mapping) (s s2 : String) (v : Value)
    (h : s2 ≠ s) :
    lookupStr (setStrKey m s v) s2 = lookupStr m s2 := by
  induction m with
  | nil => simp [setStrKey]
  | cons kv rest ih =>
    obtain ⟨k, w0⟩ := kv
    by_cases hk : k.eqStr s
    · have hk2 : k.eqStr s2 = false := by
        rw [eqStr_iff] at hk
        subst hk
        simp [Value.eqStr]
        exact fun hc => h hc.symm
      simp [setStrKey, hk, lookupStr_cons, hk2]
    · simp [setStrKey, hk, lookupStr_cons, ih]

theorem filter_setStrKey (m : Mapping) (s : String) (v : Value) :
    (setStrKey m s v).filter (fun kv => !(Value.eqStr kv.1 s)) =
      m.filter (fun kv => !(Value.eqStr kv.1 s)) := by
  induction m with
  | nil => rfl
  | cons kv rest ih =>
    obtain ⟨k, w0⟩ := kv
    by_cases hk : k.eqStr s
    · simp [setStrKey, hk, List.filter]
    · simp [setStrKey, hk, List.filter, ih]

theorem lookupStr_append_self (m : Mapping) (s : String) (v : Value)
    (h : lookupStr m s = none) :
    lookupStr (m ++ [(Value.str s, v)]) s = some v := by
  induction m with
  | nil => simp [lookupStr, List.find?, Value.eqStr]
  | cons kv rest ih =>
    obtain ⟨k, w0⟩ := kv
    rw [lookupStr_cons] at h
    by_cases hk : k.eqStr s
    · simp [hk] at h
    · simp only [hk, if_false] at h
      simp [List.cons_append, lookupStr_cons, hk, ih h]

theorem lookupStr_append_ne (m : Mapping) (s s2 : String) (v : Value)
    (h : s2 ≠ s) :
    lookupStr (m ++ [(Value.str s, v)]) s2 = lookupStr m s2 := by
  induction m with
  | nil =>
    have hf : Value.eqStr (Value.str s) s2 = false := by
      simp only [Value.eqStr, beq_eq_false_iff_ne, ne_eq]
      exact fun hc => h hc.symm
    simp [List.nil_append, lookupStr_cons, hf, lookupStr_nil]
  | cons kv rest ih =>
    obtain ⟨k, w0⟩ := kv
    by_cases hk : k.eqStr s2 <;>
      simp [List.cons_append, lookupStr_cons, hk, ih]

theorem filter_append_self (m : Mapping) (s : String) (v : Value) :
    (m ++ [(Value.str s, v)]).filter (fun kv => !(Value.eqStr kv.1 s)) =
      m.filter (fun kv => !(Value.eqStr kv.1 s)) := by
  simp [List.filter_append, List.filter, Value.eqStr]

/-! ### Concrete sample inputs used by witnesses -/

/-- A fixed clock instant. -/
def sampleInstant : DateTime :=
  { year := 2023, month := 1, day := 1, hour := 0, minute := 0, second := 0, millis := 0 }

/-- A parsed index document holding one prior entry for `test-chart`. -/
def sampleIndexValue : Value :=
  Value.map [(Value.str "apiVersion", Value.str "v1"),
    (Value.str "entries",
      Value.map [(Value.str "test-chart", Value.seq [Value.str "old"])])]

/-- The `ChartYaml` that `sampleIndexValue` deserializes to. -/
def sampleIndex : ChartYaml :=
  { api_version := some "v1"
    entries := [(Value.str "test-chart", Value.seq [Value.str "old"])] }

/-! ### Claims -/

/-- C3: the appVersion of the new entry equals the parameters value when it
is present and falls back to the constants value when it is absent; the two
cases are exhaustive, so the value is never a merge of the two. -/
theorem C3_appVersion_fallback (created : String) (c : Constants) (p : Parameters) :
    (∀ v, p.app_version = some v → (mkNewEntry created c p).app_version = v) ∧
    (p.app_version = none → (mkNewEntry created c p).app_version = c.app_version) := by
  constructor
  · intro v hv
    simp [mkNewEntry, hv]
  · intro hv
    simp [mkNewEntry, hv]

theorem C3_appVersion_fallback_witness :
    (mkNewEntry "2023-01-01T00:00:00.000Z" Constants.default
        { Parameters.default with app_version := some "1.0.1" }).app_version = "1.0.1" :=
  (C3_appVersion_fallback "2023-01-01T00:00:00.000Z" Constants.default
      { Parameters.default with app_version := some "1.0.1" }).1 "1.0.1" rfl

/-- C9: `update_yaml` is deterministic once the clock instant is fixed: its
value depends only on the clock instant, the index file state, the
constants and the parameters, so two runs on identical inputs return
identical output. -/
theorem C9_deterministic (t1 t2 : DateTime) (f1 f2 : FileInput) (c1 c2 : Constants)
    (p1 p2 : Parameters) (ht : t1 = t2) (hf : f1 = f2) (hc : c1 = c2) (hp : p1 = p2) :
    update_yaml t1 f1 c1 p1 = update_yaml t2 f2 c2 p2 := by
  subst ht
  subst hf
  subst hc
  subst hp
  rfl

theorem C9_deterministic_witness :
    update_yaml sampleInstant FileInput.missing Constants.default Parameters.default =
      update_yaml sampleInstant FileInput.missing Constants.default Parameters.default :=
  C9_deterministic sampleInstant sampleInstant FileInput.missing FileInput.missing
    Constants.default Constants.default Parameters.default Parameters.default
    rfl rfl rfl rfl

/-- C2: on a missing index file, or one whose contents are whitespace-only,
`update_yaml` returns the serialization of an index with apiVersion `v1`
whose entries hold exactly one key, `constants.name`, with exactly the one
new merged entry. -/
theorem C2_fresh_index_single_entry (t : DateTime) (c : Constants) (p : Parameters)
    (file : FileInput)
    (h : file = FileInput.missing ∨
         ∃ contents outcome, file = FileInput.present contents outcome ∧
           isBlank contents = true) :
    update_yaml t file c p =
      Except.ok (serializeChartYaml
        { api_version := some "v1"
          entries := [(Value.str c.name,
            Value.seq [chartEntryToValue (mkNewEntry (formatTimestamp t) c p)])] }) := by
  rcases h with h | ⟨contents, outcome, h, hb⟩
  · subst h
    simp [update_yaml, loadIndex, updateEntries, lookupStr_nil]
  · subst h
    simp [update_yaml, loadIndex, updateEntries, lookupStr_nil, hb]

theorem C2_fresh_index_single_entry_witness :
    update_yaml sampleInstant FileInput.missing Constants.default Parameters.default =
      Except.ok (serializeChartYaml
        { api_version := some "v1"
          entries := [(Value.str Constants.default.name,
            Value.seq [chartEntryToValue
              (mkNewEntry (formatTimestamp sampleInstant) Constants.default
                Parameters.default)])] }) :=
  C2_fresh_index_single_entry sampleInstant Constants.default Parameters.default
    FileInput.missing (Or.inl rfl)

/-- C5 counterexample: on an existing file whose non-blank contents do not
deserialize as the index schema (here the YAML scalar `not an index`),
`update_yaml` aborts with an error; it does not reset to an empty index and
return a serialized index with one entry, as the claim states. -/
theorem C5_counterexample :
    update_yaml sampleInstant
        (FileInput.present "not an index" (some (Value.str "not an index")))
        Constants.default Parameters.default =
      Except.error "index file does not match the expected schema" := by
  rfl

/-- C5 amended: on an existing index file whose contents are non-blank and
either are not valid YAML or do not deserialize as the index schema,
`update_yaml` returns an error rather than a serialized index. -/
theorem C5_amended_parse_failure_errors (t : DateTime) (c : Constants) (p : Parameters)
    (contents : String) (outcome : Option Value)
    (hnb : isBlank contents = false)
    (hbad : outcome = none ∨ ∃ v, outcome = some v ∧ parseChartYaml v = none) :
    ∃ e, update_yaml t (FileInput.present contents outcome) c p = Except.error e := by
  rcases hbad with h | ⟨v, h, hv⟩
  · subst h
    exact ⟨"invalid YAML in index file", by simp [update_yaml, loadIndex, hnb]⟩
  · subst h
    exact ⟨"index file does not match the expected schema",
      by simp [update_yaml, loadIndex, hnb, hv]⟩

theorem C5_amended_parse_failure_errors_witness :
    ∃ e, update_yaml sampleInstant (FileInput.present "x" none)
        Constants.default Parameters.default = Except.error e :=
  C5_amended_parse_failure_errors sampleInstant Constants.default Parameters.default
    "x" none (by decide) (Or.inl rfl)

/-- C4 counterexample: a schema B index document, whose `entries` value is a
flat list, is rejected by deserialization, and a parameters document whose
`urls` value is a single string is rejected as well — it is not promoted to
a one-element list. -/
theorem C4_counterexample :
    parseChartYaml (Value.map [(Value.str "apiVersion", Value.str "v1"),
        (Value.str "entries", Value.seq [])]) = none ∧
    parseParameters (Value.map [(Value.str "digest", Value.str "abc123"),
        (Value.str "version", Value.str "0.1.0"),
        (Value.str "urls",
          Value.str "https://example.com/test-chart-0.1.0.tgz")]) = none := by
  constructor <;> rfl

/-- C4 amended: the program reads only schema A.  Any index document whose
`entries` value is a sequence (the schema B flat list) fails to
deserialize, and any parameters document whose `urls` value is a single
string fails to deserialize, so no promotion of a string to a one-element
list ever happens. -/
theorem C4_amended_schema_A_only (kvs kvs2 : Mapping) (xs : List Value) (s : String) :
    (lookupStr kvs "entries" = some (Value.seq xs) →
      parseChartYaml (Value.map kvs) = none) ∧
    (lookupStr kvs2 "urls" = some (Value.str s) →
      parseParameters (Value.map kvs2) = none) := by
  constructor
  · intro h
    have hred : parseChartYaml (Value.map kvs) =
        match parseOptString (lookupStr kvs "apiVersion"),
              parseMapping (lookupStr kvs "entries") with
        | some av, some es => some { api_version := av, entries := es }
        | _, _ => none := rfl
    rw [hred, h]
    cases parseOptString (lookupStr kvs "apiVersion") <;> simp [parseMapping]
  · intro h
    have hred : parseParameters (Value.map kvs2) =
        match parseOptString (lookupStr kvs2 "appVersion"),
              parseString (lookupStr kvs2 "digest"),
              parseString (lookupStr kvs2 "version"),
              parseStringList (lookupStr kvs2 "urls") with
        | some av, some dg, some vr, some us =>
          some { app_version := av, digest := dg, version := vr, urls := us }
        | _, _, _, _ => none := rfl
    rw [hred, h]
    cases parseOptString (lookupStr kvs2 "appVersion") <;>
      cases parseString (lookupStr kvs2 "digest") <;>
        cases parseString (lookupStr kvs2 "version") <;>
          simp [parseStringList]

theorem C4_amended_schema_A_only_witness :
    parseChartYaml (Value.map [(Value.str "entries", Value.seq [])]) = none ∧
    parseParameters (Value.map [(Value.str "urls", Value.str "u")]) = none := by
  have h := C4_amended_schema_A_only [(Value.str "entries", Value.seq [])]
    [(Value.str "urls", Value.str "u")] [] "u"
  exact ⟨h.1 rfl, h.2 rfl⟩

/-- C1: appending to an existing index that already holds prior entries
under `constants.name` keeps every prior entry, in order, and appends the
new merged entry as the last element of that list. -/
theorem C1_append_preserves_prior (t : DateTime) (contents : String) (v : Value)
    (d : ChartYaml) (c : Constants) (p : Parameters) (prior : List Value)
    (hnb : isBlank contents = false)
    (hparse : parseChartYaml v = some d)
    (hprior : lookupStr d.entries c.name = some (Value.seq prior)) :
    ∃ m2 : Mapping,
      update_yaml t (FileInput.present contents (some v)) c p =
        Except.ok (serializeChartYaml { api_version := d.api_version, entries := m2 }) ∧
      lookupStr m2 c.name =
        some (Value.seq (prior ++
          [chartEntryToValue (mkNewEntry (formatTimestamp t) c p)])) := by
  refine ⟨setStrKey d.entries c.name
    (Value.seq (prior ++ [chartEntryToValue (mkNewEntry (formatTimestamp t) c p)])),
    ?_, ?_⟩
  · simp [update_yaml, loadIndex, hnb, hparse, updateEntries, hprior]
  · exact lookupStr_setStrKey_self _ _ _ _ hprior

theorem C1_append_preserves_prior_witness :
    ∃ m2 : Mapping,
      update_yaml sampleInstant (FileInput.present "apiVersion: v1" (some sampleIndexValue))
          Constants.default Parameters.default =
        Except.ok (serializeChartYaml
          { api_version := sampleIndex.api_version, entries := m2 }) ∧
      lookupStr m2 Constants.default.name =
        some (Value.seq ([Value.str "old"] ++
          [chartEntryToValue (mkNewEntry (formatTimestamp sampleInstant)
            Constants.default Parameters.default)])) :=
  C1_append_preserves_prior sampleInstant "apiVersion: v1" sampleIndexValue sampleIndex
    Constants.default Parameters.default [Value.str "old"]
    (by decide) (by rfl) (by rfl)

/-- C6: when the parsed index stores a non-sequence value (a scalar or a
mapping) under the key `constants.name`, `update_yaml` returns the
structural-mismatch error of src/src/main.rs line 165 and no serialized
index. -/
theorem C6_wrong_shape_errors (t : DateTime) (contents : String) (v : Value)
    (d : ChartYaml) (c : Constants) (p : Parameters) (w : Value)
    (hnb : isBlank contents = false)
    (hparse : parseChartYaml v = some d)
    (hw : lookupStr d.entries c.name = some w)
    (hns : w.isSeq = false) :
    update_yaml t (FileInput.present contents (some v)) c p =
      Except.error "Unexpected value type for entries" := by
  cases w with
  | seq xs => simp [Value.isSeq] at hns
  | null => simp [update_yaml, loadIndex, hnb, hparse, updateEntries, hw]
  | bool b => simp [update_yaml, loadIndex, hnb, hparse, updateEntries, hw]
  | str s => simp [update_yaml, loadIndex, hnb, hparse, updateEntries, hw]
  | map kvs => simp [update_yaml, loadIndex, hnb, hparse, updateEntries, hw]

/-- A parsed index whose list for `test-chart` is a scalar instead of a
sequence. -/
def sampleBadIndexValue : Value :=
  Value.map [(Value.str "apiVersion", Value.str "v1"),
    (Value.str "entries", Value.map [(Value.str "test-chart", Value.str "oops")])]

theorem C6_wrong_shape_errors_witness :
    update_yaml sampleInstant (FileInput.present "apiVersion: v1" (some sampleBadIndexValue))
        Constants.default Parameters.default =
      Except.error "Unexpected value type for entries" :=
  C6_wrong_shape_errors sampleInstant "apiVersion: v1" sampleBadIndexValue
    { api_version := some "v1"
      entries := [(Value.str "test-chart", Value.str "oops")] }
    Constants.default Parameters.default (Value.str "oops")
    (by decide) (by rfl) (by rfl) (by rfl)

/-- C8: on a successfully loaded index, the output keeps the loaded
apiVersion value, keeps every entries pair whose key differs from
`constants.name` (with its value list) unchanged and in order, and changes
the list under `constants.name` only by appending the new entry. -/
theorem C8_frame_preservation (t : DateTime) (file : FileInput) (d : ChartYaml)
    (c : Constants) (p : Parameters) (xs : List Value)
    (hload : loadIndex file = Except.ok d)
    (hprior : lookupStr d.entries c.name = some (Value.seq xs) ∨
              (lookupStr d.entries c.name = none ∧ xs = [])) :
    ∃ m2 : Mapping,
      update_yaml t file c p =
        Except.ok (serializeChartYaml { api_version := d.api_version, entries := m2 }) ∧
      m2.filter (fun kv => !(Value.eqStr kv.1 c.name)) =
        d.entries.filter (fun kv => !(Value.eqStr kv.1 c.name)) ∧
      lookupStr m2 c.name =
        some (Value.seq (xs ++
          [chartEntryToValue (mkNewEntry (formatTimestamp t) c p)])) := by
  rcases hprior with h | ⟨h, hxs⟩
  · refine ⟨setStrKey d.entries c.name
      (Value.seq (xs ++ [chartEntryToValue (mkNewEntry (formatTimestamp t) c p)])),
      ?_, ?_, ?_⟩
    · simp [update_yaml, hload, updateEntries, h]
    · exact filter_setStrKey _ _ _
    · exact lookupStr_setStrKey_self _ _ _ _ h
  · subst hxs
    refine ⟨d.entries ++ [(Value.str c.name,
      Value.seq [chartEntryToValue (mkNewEntry (formatTimestamp t) c p)])],
      ?_, ?_, ?_⟩
    · simp [update_yaml, hload, updateEntries, h]
    · exact filter_append_self _ _ _
    · exact lookupStr_append_self _ _ _ h

theorem C8_frame_preservation_witness :
    ∃ m2 : Mapping,
      update_yaml sampleInstant (FileInput.present "apiVersion: v1" (some sampleIndexValue))
          Constants.default Parameters.default =
        Except.ok (serializeChartYaml
          { api_version := sampleIndex.api_version, entries := m2 }) ∧
      m2.filter (fun kv => !(Value.eqStr kv.1 Constants.default.name)) =
        sampleIndex.entries.filter (fun kv => !(Value.eqStr kv.1 Constants.default.name)) ∧
      lookupStr m2 Constants.default.name =
        some (Value.seq ([Value.str "old"] ++
          [chartEntryToValue (mkNewEntry (formatTimestamp sampleInstant)
            Constants.default Parameters.default)])) :=
  C8_frame_preservation sampleInstant
    (FileInput.present "apiVersion: v1" (some sampleIndexValue)) sampleIndex
    Constants.default Parameters.default [Value.str "old"]
    (by rfl) (Or.inl (by rfl))

/-- Serializing an index whose apiVersion is absent puts the line
`apiVersion: null` first. -/
theorem serializeChartYaml_null (m : Mapping) :
    serializeChartYaml { api_version := none, entries := m } =
      "apiVersion: null\n" ++ entriesText m := by
  show ("apiVersion: " ++ apiVersionText none ++ "\n") ++ entriesText m = _
  have h : ("apiVersion: " ++ apiVersionText none ++ "\n") = "apiVersion: null\n" := by
    decide
  rw [h]

/-- C10: an index document that parses but has no top-level `apiVersion`
key deserializes with the field absent rather than failing, and the
serialized output then starts with the line `apiVersion: null` — the field
is neither omitted nor defaulted to `v1`. -/
theorem C10_missing_apiVersion_null (t : DateTime) (c : Constants) (p : Parameters)
    (contents : String) (kvs es : Mapping)
    (hnb : isBlank contents = false)
    (hno : lookupStr kvs "apiVersion" = none)
    (hes : lookupStr kvs "entries" = some (Value.map es))
    (hname : (∃ xs, lookupStr es c.name = some (Value.seq xs)) ∨
             lookupStr es c.name = none) :
    parseChartYaml (Value.map kvs) = some { api_version := none, entries := es } ∧
    ∃ rest, update_yaml t (FileInput.present contents (some (Value.map kvs))) c p =
      Except.ok ("apiVersion: null\n" ++ rest) := by
  have hparse : parseChartYaml (Value.map kvs) =
      some { api_version := none, entries := es } := by
    have hred : parseChartYaml (Value.map kvs) =
        match parseOptString (lookupStr kvs "apiVersion"),
              parseMapping (lookupStr kvs "entries") with
        | some av, some esx => some { api_version := av, entries := esx }
        | _, _ => none := rfl
    rw [hred, hno, hes]
    rfl
  refine ⟨hparse, ?_⟩
  rcases hname with ⟨xs, h⟩ | h
  · have hok : update_yaml t (FileInput.present contents (some (Value.map kvs))) c p =
        Except.ok (serializeChartYaml
          { api_version := none
            entries := setStrKey es c.name (Value.seq (xs ++
              [chartEntryToValue (mkNewEntry (formatTimestamp t) c p)])) }) := by
      simp [update_yaml, loadIndex, hnb, hparse, updateEntries, h]
    exact ⟨entriesText (setStrKey es c.name (Value.seq (xs ++
      [chartEntryToValue (mkNewEntry (formatTimestamp t) c p)]))),
      by rw [hok, serializeChartYaml_null]⟩
  · have hok : update_yaml t (FileInput.present contents (some (Value.map kvs))) c p =
        Except.ok (serializeChartYaml
          { api_version := none
            entries := es ++ [(Value.str c.name, Value.seq
              [chartEntryToValue (mkNewEntry (formatTimestamp t) c p)])] }) := by
      simp [update_yaml, loadIndex, hnb, hparse, updateEntries, h]
    exact ⟨entriesText (es ++ [(Value.str c.name, Value.seq
      [chartEntryToValue (mkNewEntry (formatTimestamp t) c p)])]),
      by rw [hok, serializeChartYaml_null]⟩

theorem C10_missing_apiVersion_null_witness :
    parseChartYaml (Value.map [(Value.str "entries", Value.map [])]) =
      some { api_version := none, entries := [] } ∧
    ∃ rest, update_yaml sampleInstant
        (FileInput.present "entries: \x7b\x7d"
          (some (Value.map [(Value.str "entries", Value.map [])])))
        Constants.default Parameters.default =
      Except.ok ("apiVersion: null\n" ++ rest) :=
  C10_missing_apiVersion_null sampleInstant Constants.default Parameters.default
    "entries: \x7b\x7d" [(Value.str "entries", Value.map [])] []
    (by decide) (by rfl) (by rfl) (Or.inr (by rfl))

/-- Digit characters produced by the formatter are decimal digits. -/
theorem digitChar_isDigit (n : Nat) : (digitChar n).isDigit = true := by
  have h : n % 10 < 10 := Nat.mod_lt n (by decide)
  have hall : ∀ k, k < 10 → (Char.ofNat (48 + k)).isDigit = true := by decide
  exact hall (n % 10) h

/-- The character list of the formatted timestamp, for years below 10000. -/
theorem formatTimestamp_data (t : DateTime) (h : t.year < 10000) :
    (formatTimestamp t).data =
      [digitChar (t.year / 1000), digitChar (t.year / 100), digitChar (t.year / 10),
       digitChar t.year, '-', digitChar (t.month / 10), digitChar t.month, '-',
       digitChar (t.day / 10), digitChar t.day, 'T', digitChar (t.hour / 10),
       digitChar t.hour, ':', digitChar (t.minute / 10), digitChar t.minute, ':',
       digitChar (t.second / 10), digitChar t.second, '.', digitChar (t.millis / 100),
       digitChar (t.millis / 10), digitChar t.millis, 'Z'] := by
  have hdash : "-".data = ['-'] := rfl
  have htee : "T".data = ['T'] := rfl
  have hcolon : ":".data = [':'] := rfl
  have hdot : ".".data = ['.'] := rfl
  have hzee : "Z".data = ['Z'] := rfl
  simp [formatTimestamp, pad2, pad3, pad4, h, String.data_append,
    hdash, htee, hcolon, hdot, hzee]

/-- C7: the created field of the new entry is exactly the formatted clock
instant, and for every instant `chrono::Utc::now()` can produce the
formatted string has the shape `YYYY-MM-DDTHH:MM:SS.mmmZ`: millisecond
precision and a trailing literal Z with no other timezone offset. -/
theorem C7_created_timestamp_shape (t : DateTime) (c : Constants) (p : Parameters)
    (h : t.valid) :
    (mkNewEntry (formatTimestamp t) c p).created = formatTimestamp t ∧
    isTimestampShape (formatTimestamp t) = true := by
  refine ⟨rfl, ?_⟩
  have hy : t.year < 10000 := by
    have h1 := h.1
    omega
  unfold isTimestampShape
  rw [formatTimestamp_data t hy]
  simp [digitChar_isDigit]

theorem C7_created_timestamp_shape_witness :
    DateTime.valid sampleInstant ∧
    (mkNewEntry (formatTimestamp sampleInstant) Constants.default
        Parameters.default).created = formatTimestamp sampleInstant ∧
    isTimestampShape (formatTimestamp sampleInstant) = true := by
  have hv : DateTime.valid sampleInstant := by
    unfold DateTime.valid
    decide
  exact ⟨hv, C7_created_timestamp_shape sampleInstant Constants.default
    Parameters.default hv⟩

end HelmRepoUpdater
